import Mathlib

set_option maxHeartbeats 1000000

/-!
Verification of the Risor bytecode VM core (src/vm/vm.go) against its
specification. The definitions below are a shallow embedding of the Go
source: the dispatcher switch of `eval`, the halt-flag poll, the operand
stack primitives, `checkCallArgs`, the defer registration and firing
machinery of `callFunction`, `loadModule`, `Clone`, and the stack effect
of `resumeFrame`. Machine words of the instruction stream are 16-bit
values modelled as `Nat`; the Go `int` registers (ip) are modelled as
`Int`. The external object package (value model) is out of scope for the
core per the spec; the few value shapes the verified opcodes touch are
modelled from the spec and marked as such.
-/

/-- Modelled from the spec: the value protocol of the external object
package (the concrete value model is an external collaborator; the core
only requires its capability interfaces). `pfun n` stands for a partial
(a pre-bound callable) with identity `n`; lists are the container shape
exercised here. -/
inductive Obj where
  | nil
  | boolean (b : Bool)
  | int (n : Int)
  | str (s : String)
  | list (xs : List Obj)
  | pfun (pid : Nat)

/-- Modelled from the spec: every value answers a truthiness predicate. -/
def Obj.isTruthy : Obj → Bool
  | .nil => false
  | .boolean b => b
  | .int n => n != 0
  | .str s => s.length != 0
  | .list xs => xs.length != 0
  | .pfun _ => true

/-- Modelled from the spec: every value answers a type name string. -/
def Obj.typeName : Obj → String
  | .nil => "nil"
  | .boolean _ => "bool"
  | .int _ => "int"
  | .str _ => "string"
  | .list _ => "list"
  | .pfun _ => "partial"

/-- Modelled from the spec: indexed get of the external list container
(Container.GetItem). In-range indices return the element, negative
indices count from the end, everything else is an index error. -/
def listGetItem (xs : List Obj) (idx : Int) : Except String Obj :=
  let n : Int := xs.length
  let j : Int := if idx < 0 then n + idx else idx
  if j < 0 then Except.error "index error: index out of range"
  else
    match xs.get? j.toNat with
    | some v => Except.ok v
    | none => Except.error "index error: index out of range"

/-- Read one 16-bit word of the instruction stream at a Go `int` index.
`none` models the runtime panic thrown by an out-of-range slice index. -/
def readWord (ins : List Nat) (i : Int) : Option Nat :=
  if i < 0 then none else ins.get? i.toNat

/-- Pop `n` values from the operand stack (vm.pop in a loop). The first
component lists the popped values in pop order (top first); `none`
models the underflow panic. -/
def popN : Nat → List Obj → Option (List Obj × List Obj)
  | 0, s => some ([], s)
  | _ + 1, [] => none
  | n + 1, x :: s =>
    match popN n s with
    | none => none
    | some (ps, rest) => some (x :: ps, rest)

/-- Modelled from the spec: frame.Defer (frame.go is not under src; only
its caller is). The spec says the deferred-call list of a frame is FIFO
at push time, so registration appends the partial to the list. -/
def frameDefer (defers : List Nat) (p : Nat) : List Nat := defers ++ [p]

/-- The defer-firing loop at the end of callFunction (vm.go lines
801-808): `for _, partial := range callFrame.defers` invokes vm.call on
each registered partial, and a failing call replaces the result with
that error (a later failure overwrites an earlier one). `callRes p`
is the outcome of vm.call on partial `p` (`none` = success). Returns
the final result together with the trace of partials in invocation
order. -/
def fireDefers (callRes : Nat → Option String) :
    List Nat → Except String Obj → Except String Obj × List Nat
  | [], res => (res, [])
  | p :: rest, res =>
    let res2 : Except String Obj :=
      match callRes p with
      | some e => Except.error e
      | none => res
    let out := fireDefers callRes rest res2
    (out.1, p :: out.2)

/-- The mutable registers and per-frame state touched by the modelled
opcode subset: instruction pointer (a Go int), operand stack (head is
the top of stack), and the deferred-call list of the active frame. -/
structure Core where
  ip : Int
  stack : List Obj
  defers : List Nat

/-- Outcome of dispatching a single instruction, carrying the state at
that point: continue the loop, return nil (Halt), return an error, or a
Go runtime panic. -/
inductive Step where
  | next (c : Core)
  | stop (c : Core)
  | fail (c : Core) (msg : String)
  | panicked (c : Core) (detail : String)

/- Symbolic opcode numbers. The concrete values live in the external op
package; only distinctness matters to the dispatcher switch. -/

def opNop : Nat := 1
def opHalt : Nat := 2
def opLoadConst : Nat := 3
def opNil : Nat := 4
def opTrue : Nat := 5
def opFalse : Nat := 6
def opPopTop : Nat := 7
def opDefer : Nat := 8
def opBuildList : Nat := 9
def opBinarySubscr : Nat := 10
def opUnpack : Nat := 11
def opPopJumpForwardIfTrue : Nat := 12
def opPopJumpForwardIfFalse : Nat := 13
def opPopJumpBackwardIfTrue : Nat := 14
def opPopJumpBackwardIfFalse : Nat := 15
def opJumpForward : Nat := 16
def opJumpBackward : Nat := 17

/-- One iteration body of the eval dispatch switch (vm.go lines
229-665) for the modelled opcode subset. The opcode is read at `c.ip`,
the instruction pointer is advanced before the switch executes, and
each case mirrors the order of pops and operand fetches of the Go
source. `cs` is the constants vector of the active code. Opcodes that
reenter the dispatcher (Call, ReturnValue, Import, ...) are modelled
separately below. -/
def dispatch (cs : List Obj) (ins : List Nat) (c : Core) : Step :=
  match readWord ins c.ip with
  | none => Step.panicked c "runtime error: index out of range"
  | some opcode =>
    let c1 : Core := { c with ip := c.ip + 1 }
    if opcode = opNop then
      Step.next c1
    else if opcode = opHalt then
      Step.stop c1
    else if opcode = opLoadConst then
      match readWord ins c1.ip with
      | none => Step.panicked c1 "runtime error: index out of range"
      | some w =>
        let c2 : Core := { c1 with ip := c1.ip + 1 }
        match cs.get? w with
        | none => Step.panicked c2 "runtime error: index out of range"
        | some v => Step.next { c2 with stack := v :: c2.stack }
    else if opcode = opNil then
      Step.next { c1 with stack := Obj.nil :: c1.stack }
    else if opcode = opTrue then
      Step.next { c1 with stack := Obj.boolean true :: c1.stack }
    else if opcode = opFalse then
      Step.next { c1 with stack := Obj.boolean false :: c1.stack }
    else if opcode = opPopTop then
      match c1.stack with
      | [] => Step.panicked c1 "runtime error: index out of range [-1]"
      | _ :: rest => Step.next { c1 with stack := rest }
    else if opcode = opDefer then
      match c1.stack with
      | [] => Step.panicked c1 "runtime error: index out of range [-1]"
      | x :: rest =>
        match x with
        | Obj.pfun pid =>
          Step.next { c1 with stack := rest, defers := frameDefer c1.defers pid }
        | other =>
          Step.fail { c1 with stack := rest }
            ("type error: object is not a partial (got " ++ other.typeName ++ ")")
    else if opcode = opBuildList then
      match readWord ins c1.ip with
      | none => Step.panicked c1 "runtime error: index out of range"
      | some w =>
        let c2 : Core := { c1 with ip := c1.ip + 1 }
        match popN w c2.stack with
        | none => Step.panicked c2 "runtime error: index out of range [-1]"
        | some (ps, rest) =>
          Step.next { c2 with stack := Obj.list ps.reverse :: rest }
    else if opcode = opBinarySubscr then
      match c1.stack with
      | [] => Step.panicked c1 "runtime error: index out of range [-1]"
      | idx :: s1 =>
        match s1 with
        | [] => Step.panicked { c1 with stack := [] } "runtime error: index out of range [-1]"
        | lhs :: s2 =>
          match lhs with
          | Obj.list xs =>
            match idx with
            | Obj.int i =>
              match listGetItem xs i with
              | Except.error e => Step.fail { c1 with stack := s2 } e
              | Except.ok v => Step.next { c1 with stack := v :: s2 }
            | other =>
              Step.fail { c1 with stack := s2 }
                ("index error: list index must be an int (got " ++ other.typeName ++ ")")
          | other =>
            Step.fail { c1 with stack := s2 }
              ("type error: object is not a container (got " ++ other.typeName ++ ")")
    else if opcode = opUnpack then
      match c1.stack with
      | [] => Step.panicked c1 "runtime error: index out of range [-1]"
      | cont :: s1 =>
        match readWord ins c1.ip with
        | none => Step.panicked { c1 with stack := s1 } "runtime error: index out of range"
        | some w =>
          let c2 : Core := { c1 with ip := c1.ip + 1, stack := s1 }
          match cont with
          | Obj.list xs =>
            if xs.length ≠ w then
              Step.fail c2
                ("exec error: unpack count mismatch: " ++ toString xs.length
                  ++ " != " ++ toString w)
            else
              Step.next { c2 with stack := xs.reverse ++ s1 }
          | other =>
            Step.fail c2
              ("type error: object is not a container (got " ++ other.typeName ++ ")")
    else if opcode = opPopJumpForwardIfTrue then
      match c1.stack with
      | [] => Step.panicked c1 "runtime error: index out of range [-1]"
      | tos :: rest =>
        match readWord ins c1.ip with
        | none => Step.panicked { c1 with stack := rest } "runtime error: index out of range"
        | some w =>
          let delta : Int := (w : Int) - 2
          let c2 : Core := { c1 with ip := c1.ip + 1, stack := rest }
          if tos.isTruthy then Step.next { c2 with ip := c2.ip + delta }
          else Step.next c2
    else if opcode = opPopJumpForwardIfFalse then
      match c1.stack with
      | [] => Step.panicked c1 "runtime error: index out of range [-1]"
      | tos :: rest =>
        match readWord ins c1.ip with
        | none => Step.panicked { c1 with stack := rest } "runtime error: index out of range"
        | some w =>
          let delta : Int := (w : Int) - 2
          let c2 : Core := { c1 with ip := c1.ip + 1, stack := rest }
          if tos.isTruthy then Step.next c2
          else Step.next { c2 with ip := c2.ip + delta }
    else if opcode = opPopJumpBackwardIfTrue then
      match c1.stack with
      | [] => Step.panicked c1 "runtime error: index out of range [-1]"
      | tos :: rest =>
        match readWord ins c1.ip with
        | none => Step.panicked { c1 with stack := rest } "runtime error: index out of range"
        | some w =>
          let delta : Int := (w : Int) - 2
          let c2 : Core := { c1 with ip := c1.ip + 1, stack := rest }
          if tos.isTruthy then Step.next { c2 with ip := c2.ip - delta }
          else Step.next c2
    else if opcode = opPopJumpBackwardIfFalse then
      match c1.stack with
      | [] => Step.panicked c1 "runtime error: index out of range [-1]"
      | tos :: rest =>
        match readWord ins c1.ip with
        | none => Step.panicked { c1 with stack := rest } "runtime error: index out of range"
        | some w =>
          let delta : Int := (w : Int) - 2
          let c2 : Core := { c1 with ip := c1.ip + 1, stack := rest }
          if tos.isTruthy then Step.next c2
          else Step.next { c2 with ip := c2.ip - delta }
    else if opcode = opJumpForward then
      let base : Int := c1.ip - 1
      match readWord ins c1.ip with
      | none => Step.panicked c1 "runtime error: index out of range"
      | some w => Step.next { c1 with ip := base + (w : Int) }
    else if opcode = opJumpBackward then
      let base : Int := c1.ip - 1
      match readWord ins c1.ip with
      | none => Step.panicked c1 "runtime error: index out of range"
      | some w => Step.next { c1 with ip := base - (w : Int) }
    else
      Step.fail c1 ("exec error: unknown opcode: " ++ toString opcode)

/-- Result of running the eval loop. Besides the final state it carries
two instrumentation counters kept by the loop itself: the number of
instructions dispatched and the number of times the halt flag was
polled. `fuelOut` is an artifact of the fuel-based model (the Go loop
has no fuel). -/
inductive EvalResult where
  | done (c : Core) (dispatched polls : Nat)
  | failed (c : Core) (msg : String) (dispatched polls : Nat)
  | panicked (c : Core) (detail : String) (dispatched polls : Nat)
  | fuelOut (c : Core) (dispatched polls : Nat)

def EvalResult.dispatchCount : EvalResult → Nat
  | .done _ d _ => d
  | .failed _ _ d _ => d
  | .panicked _ _ d _ => d
  | .fuelOut _ d _ => d

def EvalResult.pollCount : EvalResult → Nat
  | .done _ _ p => p
  | .failed _ _ _ p => p
  | .panicked _ _ _ p => p
  | .fuelOut _ _ p => p

/-- The eval loop (vm.go lines 221-668): while `ip` is inside the
instruction stream, poll the halt flag once, return the context error
when it reads 1, and otherwise dispatch the instruction at `ip`. The
halt flag is written only by the cancellation goroutine, so during one
poll-observation window it is a fixed boolean `hlt`; `ctxErr` is the
error carried by the evaluation context (what ctx.Err() returns after
cancellation). `d` and `p` are the instrumentation counters. -/
def evalLoop (ctxErr : String) (hlt : Bool) (cs : List Obj) (ins : List Nat) :
    Nat → Core → Nat → Nat → EvalResult
  | 0, c, d, p => EvalResult.fuelOut c d p
  | fuel + 1, c, d, p =>
    if c.ip < (ins.length : Int) then
      if hlt then EvalResult.failed c ctxErr d (p + 1)
      else
        match dispatch cs ins c with
        | Step.next c2 => evalLoop ctxErr hlt cs ins fuel c2 (d + 1) (p + 1)
        | Step.stop c2 => EvalResult.done c2 (d + 1) (p + 1)
        | Step.fail c2 msg => EvalResult.failed c2 msg (d + 1) (p + 1)
        | Step.panicked c2 detail => EvalResult.panicked c2 detail (d + 1) (p + 1)
    else EvalResult.done c d p

/-- The signature facts of a compiled function that checkCallArgs
consults: fn.Parameters() length and fn.RequiredArgsCount(). -/
structure FunctionSig where
  paramsCount : Nat
  requiredArgsCount : Nat

/-- checkCallArgs (vm.go lines 992-1011): reject a call whose argument
count exceeds the parameter count or falls below the required-argument
count, with singular and no-argument wording for 1 and 0 parameters. -/
def checkCallArgs (fn : FunctionSig) (argc : Nat) : Option String :=
  if argc > fn.paramsCount || argc < fn.requiredArgsCount then
    some (match fn.paramsCount with
      | 0 => "type error: function takes no arguments (" ++ toString argc ++ " given)"
      | 1 => "type error: function takes 1 argument (" ++ toString argc ++ " given)"
      | n => "type error: function takes " ++ toString n ++ " arguments ("
          ++ toString argc ++ " given)")
  else none

/-- The error message the specification claims for a bad argument
count, written from the words of the spec alone: `function takes N
arguments (M given)`, with `no arguments` when N = 0 and `1 argument`
when N = 1. -/
def specArgErrorMessage (N M : Nat) : String :=
  if N = 0 then "function takes no arguments (" ++ toString M ++ " given)"
  else if N = 1 then "function takes 1 argument (" ++ toString M ++ " given)"
  else "function takes " ++ toString N ++ " arguments (" ++ toString M ++ " given)"

/-- A module value; `mid` models the Go pointer identity of the
*object.Module. -/
structure RModule where
  mid : Nat
  name : String
  deriving DecidableEq

/-- Lookup in the modules-by-name cache (vm.modules map). -/
def lookupModule (ms : List (String × RModule)) (name : String) : Option RModule :=
  (ms.find? (fun p => p.1 == name)).map (fun p => p.2)

/-- loadModule (vm.go lines 670-698): return the cached module when the
name is present; otherwise fail when no importer is configured, ask the
importer, evaluate the module code in a nested frame, and cache the
module by name on success. `imp` is the importer (none models a nil
importer), `evalModule name` abstracts evaluating the imported code in
the nested frame (`none` = success). The third component counts how
many times the module code was evaluated by this call. -/
def loadModule (imp : Option (String → Except String RModule))
    (evalModule : String → Option String)
    (ms : List (String × RModule)) (name : String) :
    Except String RModule × List (String × RModule) × Nat :=
  match lookupModule ms name with
  | some m => (Except.ok m, ms, 0)
  | none =>
    match imp with
    | none => (Except.error "exec error: imports are disabled", ms, 0)
    | some importFn =>
      match importFn name with
      | Except.error e => (Except.error e, ms, 0)
      | Except.ok m =>
        match evalModule name with
        | some e => (Except.error e, ms, 1)
        | none => (Except.ok m, (name, m) :: ms, 1)

/-- The fields of the VM that Clone consults for module loading. -/
structure VMMods where
  modules : List (String × RModule)
  importer : Option (String → Except String RModule)

/-- Clone (vm.go lines 950-977), restricted to the fields that decide
module loading: the modules map is snapshotted entry by entry (the
RModule values themselves are shared), and the clone is constructed with
`importer: nil`. -/
def cloneVM (vm : VMMods) : VMMods :=
  { modules := vm.modules, importer := none }

/-- Outcome of an entire evaluation as seen by an embedder: normal
completion, an error return, a Go panic that is unwinding, or the
fuel artifact. -/
inductive Outcome where
  | ok
  | errored (msg : String)
  | panicked (detail : String)
  | fuelOut

def evalOutcome : EvalResult → Outcome
  | EvalResult.done _ _ _ => Outcome.ok
  | EvalResult.failed _ msg _ _ => Outcome.errored msg
  | EvalResult.panicked _ detail _ _ => Outcome.panicked detail
  | EvalResult.fuelOut _ _ _ => Outcome.fuelOut

/-- The deferred recover installed by Run (vm.go lines 126-130): a
panic unwinding past the boundary is converted into the error
`panic: <detail>`; everything else passes through unchanged. -/
def recoverWrap : Outcome → Outcome
  | Outcome.panicked detail => Outcome.errored ("panic: " ++ detail)
  | o => o

/-- Run (vm.go line 124): evaluation protected by the deferred
recover. -/
def RunModel (ctxErr : String) (hlt : Bool) (cs : List Obj) (ins : List Nat)
    (fuel : Nat) (c : Core) : Outcome :=
  recoverWrap (evalOutcome (evalLoop ctxErr hlt cs ins fuel c 0 0))

/-- callFunction (vm.go lines 759-815) as seen from the panic-safety
angle: it evaluates the function code with no recover of its own, so a
panic keeps unwinding. -/
def callFunctionModel (ctxErr : String) (hlt : Bool) (cs : List Obj) (ins : List Nat)
    (fuel : Nat) (c : Core) : Outcome :=
  evalOutcome (evalLoop ctxErr hlt cs ins fuel c 0 0)

/-- Call (vm.go lines 750-755): reject the call while the VM is
running, otherwise delegate to callFunction. No recover is installed on
this path. -/
def CallModel (running : Bool) (ctxErr : String) (hlt : Bool) (cs : List Obj)
    (ins : List Nat) (fuel : Nat) (c : Core) : Outcome :=
  if running then Outcome.errored "exec error: cannot call function while the vm is running"
  else callFunctionModel ctxErr hlt cs ins fuel c

/-- The stack effect of resumeFrame (vm.go lines 880-901) with the
stack written top first: when the stack holds more than `keep` values
(`keep` = returnSp + 1, the live slot count of the caller), the top is
popped as the frame result, every slot above the watermark is cleared,
and the frame result is pushed back; otherwise the stack is left as
is. -/
def resumeStack (keep : Nat) (stack : List Obj) : List Obj :=
  if keep < stack.length then
    match stack with
    | [] => stack
    | r :: rest => r :: rest.drop (rest.length - keep)
  else stack

/-- The operand-stack effect of one function call performed by the Call
opcode that completes normally, assembled from the source: on entry
callFunction snapshots baseSP (the caller stack `callerStack`, since
the Call opcode already popped the callee and arguments); after the
callee body runs, ReturnValue has left `ret` on top and callFunction
pops it (line 814); the deferred defer-firing loop (lines 801-808) then
invokes vm.call on each registered defer, and each successful vm.call
pushes that call result (lines 825 and 840), giving `deferResults` in
firing order; the deferred resumeFrame (line 772) then runs on the
result, and finally the caller vm.call pushes `ret` (line 825). -/
def callOpcodeStack (callerStack : List Obj) (ret : Obj) (deferResults : List Obj) :
    List Obj :=
  ret :: resumeStack callerStack.length (deferResults.reverse ++ callerStack)

/-! Theorems. -/

lemma stringAppendAssoc (a b c : String) : (a ++ b) ++ c = a ++ (b ++ c) := by
  rcases a with ⟨la⟩; rcases b with ⟨lb⟩; rcases c with ⟨lc⟩
  show String.mk ((la ++ lb) ++ lc) = String.mk (la ++ (lb ++ lc))
  rw [List.append_assoc]

lemma foldl_frameDefer (regs : List Nat) :
    ∀ acc : List Nat, regs.foldl frameDefer acc = acc ++ regs := by
  induction regs with
  | nil => intro acc; simp
  | cons a tl ih =>
    intro acc
    simp only [List.foldl_cons, ih, frameDefer]
    simp

lemma fireDefers_trace (f : Nat → Option String) (ds : List Nat) :
    ∀ r : Except String Obj, (fireDefers f ds r).2 = ds := by
  induction ds with
  | nil => intro r; rfl
  | cons p tl ih => intro r; simp [fireDefers, ih]

/-- C1 (amended): deferred calls registered with the Defer opcode are
fired during frame teardown in registration order, not in reverse:
registration appends to the frame defer list and the firing loop of
callFunction ranges over that list from the front, so the partial whose
Defer executed first is invoked first. -/
theorem c1_defer_order (callRes : Nat → Option String) (regs : List Nat)
    (r : Except String Obj) :
    (fireDefers callRes (regs.foldl frameDefer []) r).2 = regs := by
  rw [foldl_frameDefer]
  simpa using fireDefers_trace callRes regs r

/-- C1 counterexample: a frame that executes Defer for partial 1 and
then Defer for partial 2 ends with defer list [1, 2], and the firing
loop invokes them in exactly that order, which is not the reverse order
[2, 1] the claim requires. -/
theorem c1_counterexample :
    (evalLoop "context canceled" false [Obj.pfun 1, Obj.pfun 2]
        [opLoadConst, 0, opDefer, opLoadConst, 1, opDefer, opHalt] 10 ⟨0, [], []⟩ 0 0 =
      EvalResult.done ⟨7, [], [1, 2]⟩ 5 5) ∧
    (fireDefers (fun _ => none) [1, 2] (Except.ok Obj.nil)).2 = [1, 2] ∧
    ([1, 2] : List Nat) ≠ [2, 1] := by
  refine ⟨rfl, rfl, by decide⟩

/-- C3: checkCallArgs rejects a call exactly when the argument count
exceeds the parameter count or falls below the required-argument count,
and the error message is `type error: ` followed by the wording the
specification states (`function takes N arguments (M given)`, with
`no arguments` for N = 0 and `1 argument` for N = 1). -/
theorem c3_arg_count_check (fn : FunctionSig) (argc : Nat) :
    checkCallArgs fn argc =
      if argc > fn.paramsCount || argc < fn.requiredArgsCount then
        some ("type error: " ++ specArgErrorMessage fn.paramsCount argc)
      else none := by
  rcases fn with ⟨p, r⟩
  unfold checkCallArgs specArgErrorMessage
  rcases p with _ | _ | n <;> simp <;>
    rw [← stringAppendAssoc, ← stringAppendAssoc] <;> rfl

/-- C4: a successful loadModule caches the module under its name, and a
second loadModule of the same name returns the identical module value
with the state unchanged and without evaluating the module code
again. -/
theorem c4_module_cached_once (imp : Option (String → Except String RModule))
    (evalModule : String → Option String) (ms : List (String × RModule))
    (name : String) (m : RModule) (ms2 : List (String × RModule)) (k : Nat)
    (h : loadModule imp evalModule ms name = (Except.ok m, ms2, k)) :
    lookupModule ms2 name = some m ∧
      loadModule imp evalModule ms2 name = (Except.ok m, ms2, 0) := by
  unfold loadModule at h
  cases hl : lookupModule ms name with
  | some m0 =>
    rw [hl] at h
    simp only [Prod.mk.injEq, Except.ok.injEq] at h
    obtain ⟨h1, h2, h3⟩ := h
    subst h1; subst h2
    refine ⟨hl, ?_⟩
    unfold loadModule
    rw [hl]
  | none =>
    rw [hl] at h
    cases imp with
    | none => simp at h
    | some importFn =>
      simp only [] at h
      cases hi : importFn name with
      | error e => rw [hi] at h; simp at h
      | ok m1 =>
        rw [hi] at h
        simp only [] at h
        cases he : evalModule name with
        | some e => rw [he] at h; simp at h
        | none =>
          rw [he] at h
          simp only [Prod.mk.injEq, Except.ok.injEq] at h
          obtain ⟨h1, h2, h3⟩ := h
          subst h1; subst h2
          have hcache : lookupModule ((name, m1) :: ms) name = some m1 := by
            simp [lookupModule, List.find?]
          refine ⟨hcache, ?_⟩
          unfold loadModule
          rw [hcache]

/-- C4 witness: a concrete first import that succeeds, after which the
cache holds the module and the second import returns it unchanged. -/
theorem c4_witness :
    lookupModule [("m", ⟨1, "m"⟩)] "m" = some ⟨1, "m"⟩ ∧
      loadModule (some (fun n => Except.ok ⟨1, n⟩)) (fun _ => none)
          [("m", ⟨1, "m"⟩)] "m" =
        (Except.ok ⟨1, "m"⟩, [("m", ⟨1, "m"⟩)], 0) :=
  c4_module_cached_once (some (fun n => Except.ok ⟨1, n⟩)) (fun _ => none)
    [] "m" ⟨1, "m"⟩ [("m", ⟨1, "m"⟩)] 1 rfl

/-- C10: a cloned VM is built with no importer, so loadModule on the
clone fails with `exec error: imports are disabled` for any name that
was not cached at clone time, while a name already cached resolves to
the very module value shared with the parent cache; both Import and
FromImport route through loadModule. -/
theorem c10_clone_imports_disabled (vm : VMMods)
    (evalModule : String → Option String) (name : String) :
    (cloneVM vm).importer = none ∧
    (lookupModule (cloneVM vm).modules name = none →
      loadModule (cloneVM vm).importer evalModule (cloneVM vm).modules name =
        (Except.error "exec error: imports are disabled", (cloneVM vm).modules, 0)) ∧
    (∀ m : RModule, lookupModule vm.modules name = some m →
      loadModule (cloneVM vm).importer evalModule (cloneVM vm).modules name =
        (Except.ok m, (cloneVM vm).modules, 0)) := by
  refine ⟨rfl, ?_, ?_⟩
  · intro hnone
    unfold loadModule
    rw [show (cloneVM vm).modules = vm.modules from rfl] at hnone ⊢
    rw [hnone]
    rfl
  · intro m hm
    unfold loadModule
    rw [show (cloneVM vm).modules = vm.modules from rfl, hm]

/-- C10 witness: a clone of a VM whose cache holds module `a` serves
`a` from the shared cache and refuses to import the uncached `b`. -/
theorem c10_witness :
    loadModule (cloneVM ⟨[("a", ⟨7, "a"⟩)], some (fun n => Except.ok ⟨9, n⟩)⟩).importer
        (fun _ => none)
        (cloneVM ⟨[("a", ⟨7, "a"⟩)], some (fun n => Except.ok ⟨9, n⟩)⟩).modules "b" =
      (Except.error "exec error: imports are disabled", [("a", ⟨7, "a"⟩)], 0) ∧
    loadModule (cloneVM ⟨[("a", ⟨7, "a"⟩)], some (fun n => Except.ok ⟨9, n⟩)⟩).importer
        (fun _ => none)
        (cloneVM ⟨[("a", ⟨7, "a"⟩)], some (fun n => Except.ok ⟨9, n⟩)⟩).modules "a" =
      (Except.ok ⟨7, "a"⟩, [("a", ⟨7, "a"⟩)], 0) := by
  constructor
  · exact (c10_clone_imports_disabled ⟨[("a", ⟨7, "a"⟩)], some (fun n => Except.ok ⟨9, n⟩)⟩
      (fun _ => none) "b").2.1 rfl
  · exact (c10_clone_imports_disabled ⟨[("a", ⟨7, "a"⟩)], some (fun n => Except.ok ⟨9, n⟩)⟩
      (fun _ => none) "a").2.2 ⟨7, "a"⟩ rfl

/-- C9 (amended): after a function call performed by the Call opcode
completes normally, the operand stack holds the values present before
the callee and its arguments were pushed plus the one result on top,
provided the callee fired no deferred calls; when deferred calls fired,
the result value of the last fired defer is additionally retained
immediately below the function result (the defer-firing loop pushes
each defer call result and resumeFrame treats the topmost leftover as
the frame result, re-pushing it above the watermark). -/
theorem c9_call_stack_effect (callerStack : List Obj) (ret : Obj)
    (deferResults : List Obj) :
    callOpcodeStack callerStack ret deferResults =
      match deferResults.getLast? with
      | none => ret :: callerStack
      | some dlast => ret :: dlast :: callerStack := by
  induction deferResults using List.reverseRecOn with
  | nil => simp [callOpcodeStack, resumeStack]
  | append_singleton l a ih =>
    clear ih
    have h1 : (l ++ [a]).reverse ++ callerStack = a :: (l.reverse ++ callerStack) := by
      simp
    rw [callOpcodeStack, h1, List.getLast?_concat]
    unfold resumeStack
    have hlen : callerStack.length < (a :: (l.reverse ++ callerStack)).length := by
      simp
      omega
    rw [if_pos hlen]
    show ret :: a :: ((l.reverse ++ callerStack).drop
        ((l.reverse ++ callerStack).length - callerStack.length)) =
      ret :: a :: callerStack
    have h2 : (l.reverse ++ callerStack).length - callerStack.length
        = l.reverse.length := by
      simp
    rw [h2, List.drop_left]

/-- C9 counterexample: with an empty caller stack, a call returning 7
whose single defer produced 1 leaves two values on the stack, not the
single result the claim requires. -/
theorem c9_counterexample :
    callOpcodeStack [] (Obj.int 7) [Obj.int 1] = [Obj.int 7, Obj.int 1] ∧
    callOpcodeStack [] (Obj.int 7) [Obj.int 1] ≠ [Obj.int 7] := by
  refine ⟨rfl, ?_⟩
  intro h
  have h2 : ([Obj.int 7, Obj.int 1] : List Obj) = [Obj.int 7] := by
    calc ([Obj.int 7, Obj.int 1] : List Obj)
        = callOpcodeStack [] (Obj.int 7) [Obj.int 1] := rfl
      _ = [Obj.int 7] := h
  have h3 := congrArg List.length h2
  simp at h3

/-- C8 (amended): a panic raised during evaluation is converted to the
error `panic: <detail>` by the deferred recover of Run, but the public
Call surface and callFunction install no recover, so a panic on that
path propagates to the embedder instead of being reported as an
error. -/
theorem c8_panic_recovery (ctxErr : String) (hlt : Bool) (cs : List Obj)
    (ins : List Nat) (fuel : Nat) (c c2 : Core) (detail : String) (d p : Nat)
    (h : evalLoop ctxErr hlt cs ins fuel c 0 0 = EvalResult.panicked c2 detail d p) :
    RunModel ctxErr hlt cs ins fuel c = Outcome.errored ("panic: " ++ detail) ∧
    CallModel false ctxErr hlt cs ins fuel c = Outcome.panicked detail := by
  unfold RunModel CallModel callFunctionModel
  rw [h]
  exact ⟨rfl, rfl⟩

/-- C8 witness: popping from an empty stack panics; Run reports the
`panic: ` error while Call lets the panic unwind. -/
theorem c8_witness :
    RunModel "ctx" false [] [opPopTop] 1 ⟨0, [], []⟩ =
      Outcome.errored ("panic: " ++ "runtime error: index out of range [-1]") ∧
    CallModel false "ctx" false [] [opPopTop] 1 ⟨0, [], []⟩ =
      Outcome.panicked "runtime error: index out of range [-1]" :=
  c8_panic_recovery "ctx" false [] [opPopTop] 1 ⟨0, [], []⟩ ⟨1, [], []⟩
    "runtime error: index out of range [-1]" 1 1 rfl

/-- C8 counterexample: a panic reached through the public Call surface
is returned as the propagating panic, which is not the `panic: <detail>`
error outcome the claim requires on every embedder-reachable path. -/
theorem c8_counterexample :
    CallModel false "ctx" false [] [opPopTop] 1 ⟨0, [], []⟩ =
      Outcome.panicked "runtime error: index out of range [-1]" ∧
    Outcome.panicked "runtime error: index out of range [-1]" ≠
      Outcome.errored ("panic: " ++ "runtime error: index out of range [-1]") := by
  refine ⟨rfl, ?_⟩
  intro h
  exact Outcome.noConfusion h

/-- C2: the eval loop polls the halt flag exactly once before
dispatching each instruction: when the flag reads 1 at an instruction
boundary the loop returns the context cancellation error immediately,
with the machine state untouched and no further instruction dispatched
(one poll, zero dispatches); and along uncancelled runs the number of
polls equals the number of instructions dispatched. -/
theorem c2_halt_poll (ctxErr : String) (cs : List Obj) (ins : List Nat) :
    (∀ (fuel : Nat) (c : Core) (d p : Nat), fuel ≠ 0 → c.ip < (ins.length : Int) →
      evalLoop ctxErr true cs ins fuel c d p = EvalResult.failed c ctxErr d (p + 1)) ∧
    (∀ (fuel : Nat) (c : Core) (d p : Nat),
      (evalLoop ctxErr false cs ins fuel c d p).pollCount + d =
        (evalLoop ctxErr false cs ins fuel c d p).dispatchCount + p) := by
  constructor
  · intro fuel c d p hf hip
    cases fuel with
    | zero => exact absurd rfl hf
    | succ n =>
      unfold evalLoop
      rw [if_pos hip]
      rfl
  · intro fuel
    induction fuel with
    | zero =>
      intro c d p
      simp [evalLoop, EvalResult.pollCount, EvalResult.dispatchCount]
      omega
    | succ n ih =>
      intro c d p
      unfold evalLoop
      by_cases hip : c.ip < (ins.length : Int)
      · rw [if_pos hip]
        simp only [Bool.false_eq_true, if_false]
        cases hstep : dispatch cs ins c with
        | next c2 =>
          have h := ih c2 (d + 1) (p + 1)
          simp only []
          omega
        | stop c2 => simp [EvalResult.pollCount, EvalResult.dispatchCount]; omega
        | fail c2 msg => simp [EvalResult.pollCount, EvalResult.dispatchCount]; omega
        | panicked c2 detail =>
          simp [EvalResult.pollCount, EvalResult.dispatchCount]; omega
      · rw [if_neg hip]
        simp [EvalResult.pollCount, EvalResult.dispatchCount]
        omega

/-- C2 witness: with the halt flag set before the first instruction of
a one-instruction program, the loop returns the context error at once,
leaving the state untouched after a single poll. -/
theorem c2_witness :
    evalLoop "context canceled" true [] [opNop] 5 ⟨0, [], []⟩ 0 0 =
      EvalResult.failed ⟨0, [], []⟩ "context canceled" 0 1 :=
  (c2_halt_poll "context canceled" [] [opNop]).1 5 ⟨0, [], []⟩ 0 0
    (by decide) (by decide)

lemma popN_append (a b : List Obj) : popN a.length (a ++ b) = some (a, b) := by
  induction a with
  | nil => rfl
  | cons x tl ih => simp [popN, ih]

lemma listGetItem_of_lt (vs : List Obj) (i : Nat) (hi : i < vs.length) :
    listGetItem vs i = Except.ok (vs.get ⟨i, hi⟩) := by
  have h0 : ¬ ((i : Int) < 0) := by omega
  simp [listGetItem, h0]
  rw [List.getElem?_eq_getElem hi]

/-- C5: BuildList n pops the n pushed values and places the bottom-most
pushed value at index 0 of the built list (the pushed order is the list
order), and BinarySubscr with an in-range integer index i then yields
exactly the i-th pushed element. -/
theorem c5_build_list_subscr (cs : List Obj) (vs rest : List Obj) (ds : List Nat)
    (i : Nat) :
    (∀ (ins : List Nat) (ip : Int), readWord ins ip = some opBuildList →
      readWord ins (ip + 1) = some vs.length →
      dispatch cs ins ⟨ip, vs.reverse ++ rest, ds⟩ =
        Step.next ⟨ip + 2, Obj.list vs :: rest, ds⟩) ∧
    (∀ (ins : List Nat) (ip : Int), readWord ins ip = some opBinarySubscr →
      ∀ hi : i < vs.length,
      dispatch cs ins ⟨ip, Obj.int i :: Obj.list vs :: rest, ds⟩ =
        Step.next ⟨ip + 1, vs.get ⟨i, hi⟩ :: rest, ds⟩) := by
  constructor
  · intro ins ip hop hw
    simp only [dispatch]
    simp [hop, hw, opNop, opHalt, opLoadConst, opNil, opTrue, opFalse, opPopTop, opDefer,
      opBuildList]
    rw [show vs.length = vs.reverse.length by simp, popN_append]
    simp [Core.mk.injEq]
    omega
  · intro ins ip hop hi
    simp only [dispatch]
    simp [hop, opNop, opHalt, opLoadConst, opNil, opTrue, opFalse, opPopTop, opDefer,
      opBuildList, opBinarySubscr]
    rw [listGetItem_of_lt vs i hi]
    rfl

/-- C6: each of the four conditional jump opcodes pops the top of stack
unconditionally; when the popped truthiness matches the predicate the
instruction pointer moves from the post-operand position by the inline
delta minus 2 (forward adds, backward subtracts), and otherwise
execution continues at the next instruction. -/
theorem c6_cond_jumps (cs : List Obj) (ins : List Nat) (ip : Int) (w : Nat)
    (tos : Obj) (rest : List Obj) (ds : List Nat)
    (hw : readWord ins (ip + 1) = some w) :
    (readWord ins ip = some opPopJumpForwardIfTrue →
      dispatch cs ins ⟨ip, tos :: rest, ds⟩ =
        Step.next ⟨if tos.isTruthy then ip + 2 + ((w : Int) - 2) else ip + 2, rest, ds⟩) ∧
    (readWord ins ip = some opPopJumpForwardIfFalse →
      dispatch cs ins ⟨ip, tos :: rest, ds⟩ =
        Step.next ⟨if tos.isTruthy then ip + 2 else ip + 2 + ((w : Int) - 2), rest, ds⟩) ∧
    (readWord ins ip = some opPopJumpBackwardIfTrue →
      dispatch cs ins ⟨ip, tos :: rest, ds⟩ =
        Step.next ⟨if tos.isTruthy then ip + 2 - ((w : Int) - 2) else ip + 2, rest, ds⟩) ∧
    (readWord ins ip = some opPopJumpBackwardIfFalse →
      dispatch cs ins ⟨ip, tos :: rest, ds⟩ =
        Step.next ⟨if tos.isTruthy then ip + 2 else ip + 2 - ((w : Int) - 2), rest, ds⟩) := by
  refine ⟨?_, ?_, ?_, ?_⟩ <;> intro hop <;> simp only [dispatch] <;>
    simp [hop, hw, opNop, opHalt, opLoadConst, opNil, opTrue, opFalse, opPopTop, opDefer,
      opBuildList, opBinarySubscr, opUnpack, opPopJumpForwardIfTrue,
      opPopJumpForwardIfFalse, opPopJumpBackwardIfTrue, opPopJumpBackwardIfFalse] <;>
    cases htr : tos.isTruthy <;>
    simp [htr, Step.next.injEq, Core.mk.injEq] <;> omega

/-- C7: Unpack n on a popped list container of length L fails with the
execution error `unpack count mismatch: L != n` and pushes nothing when
L differs from n, and pushes all L elements in iteration order when L
equals n. -/
theorem c7_unpack (cs : List Obj) (ins : List Nat) (ip : Int) (w : Nat)
    (xs rest : List Obj) (ds : List Nat)
    (hop : readWord ins ip = some opUnpack) (hw : readWord ins (ip + 1) = some w) :
    (xs.length ≠ w →
      dispatch cs ins ⟨ip, Obj.list xs :: rest, ds⟩ =
        Step.fail ⟨ip + 2, rest, ds⟩
          ("exec error: unpack count mismatch: " ++ toString xs.length
            ++ " != " ++ toString w)) ∧
    (xs.length = w →
      dispatch cs ins ⟨ip, Obj.list xs :: rest, ds⟩ =
        Step.next ⟨ip + 2, xs.reverse ++ rest, ds⟩) := by
  constructor <;> intro hlen <;> simp only [dispatch] <;>
    simp [hop, hw, hlen, opNop, opHalt, opLoadConst, opNil, opTrue, opFalse, opPopTop,
      opDefer, opBuildList, opBinarySubscr, opUnpack, Step.fail.injEq, Step.next.injEq,
      Core.mk.injEq] <;> omega

/-- C5 witness: pushing 10 then 20, BuildList 2 yields the list
[10, 20] with the bottom-most pushed value at index 0, and subscript 1
yields the second pushed element. -/
theorem c5_witness :
    dispatch [] [opBuildList, 2] ⟨0, [Obj.int 20, Obj.int 10], []⟩ =
      Step.next ⟨2, [Obj.list [Obj.int 10, Obj.int 20]], []⟩ ∧
    dispatch [] [opBinarySubscr]
        ⟨0, [Obj.int 1, Obj.list [Obj.int 10, Obj.int 20]], []⟩ =
      Step.next ⟨1, [Obj.int 20], []⟩ := by
  constructor
  · have h := (c5_build_list_subscr [] [Obj.int 10, Obj.int 20] [] [] 1).1
      [opBuildList, 2] 0 (by decide) (by decide)
    exact h
  · have h := (c5_build_list_subscr [] [Obj.int 10, Obj.int 20] [] [] 1).2
      [opBinarySubscr] 0 (by decide) (by decide)
    exact h

/-- C6 witness: PopJumpForwardIfTrue on a true value with inline
operand 5 pops the value and lands on the opcode address plus 5. -/
theorem c6_witness :
    dispatch [] [opPopJumpForwardIfTrue, 5] ⟨0, [Obj.boolean true], []⟩ =
      Step.next ⟨5, [], []⟩ := by
  have h := (c6_cond_jumps [] [opPopJumpForwardIfTrue, 5] 0 5 (Obj.boolean true) [] []
    (by decide)).1 (by decide)
  exact h

/-- C7 witness: Unpack 3 on a list of length 2 fails with the mismatch
message pushing nothing, and Unpack 2 on the same list pushes both
elements in iteration order. -/
theorem c7_witness :
    dispatch [] [opUnpack, 3] ⟨0, [Obj.list [Obj.int 1, Obj.int 2]], []⟩ =
      Step.fail ⟨2, [], []⟩ "exec error: unpack count mismatch: 2 != 3" ∧
    dispatch [] [opUnpack, 2] ⟨0, [Obj.list [Obj.int 1, Obj.int 2]], []⟩ =
      Step.next ⟨2, [Obj.int 2, Obj.int 1], []⟩ := by
  constructor
  · have h := (c7_unpack [] [opUnpack, 3] 0 3 [Obj.int 1, Obj.int 2] [] []
      (by decide) (by decide)).1 (by decide)
    exact h
  · have h := (c7_unpack [] [opUnpack, 2] 0 2 [Obj.int 1, Obj.int 2] [] []
      (by decide) (by decide)).2 (by decide)
    exact h
